import Mathlib

/-!
Shallow embedding of `src/scripts/ev_range_calculator.py` (Polestar 4
Intelligent Range Calculator V3).

Python floats are modelled as exact rationals (`ℚ`); every numeric literal of
the source is carried over verbatim as the corresponding rational.  The
network call to the Valhalla routing engine is modelled by an explicit
`Except` input: the success value is the list of `(contour distance,
geometry)` pairs parsed from the response features, the error value is one of
the three exception classes the Python code catches.  Geometry objects are
opaque to the core, so they are a type parameter `G`.
-/

namespace EvRange

/-- `BATTERY_CAPACITY_KWH = 100.0` (module constant). -/
def BATTERY_CAPACITY_KWH : ℚ := 100

/-- `VEHICLE_MASS_KG = 2435.0` (module constant). -/
def VEHICLE_MASS_KG : ℚ := 2435

/-- `DRAG_COEFFICIENT = 0.28` (module constant). -/
def DRAG_COEFFICIENT : ℚ := 28/100

/-- `FRONTAL_AREA_M2 = 2.62` (module constant). -/
def FRONTAL_AREA_M2 : ℚ := 262/100

/-- `ROLLING_RESISTANCE = 0.009` (module constant). -/
def ROLLING_RESISTANCE : ℚ := 9/1000

/-- `AIR_DENSITY_KG_M3 = 1.225` (module constant). -/
def AIR_DENSITY_KG_M3 : ℚ := 1225/1000

/-- `DRIVETRAIN_EFFICIENCY = 0.90` (module constant). -/
def DRIVETRAIN_EFFICIENCY : ℚ := 90/100

/-- `REGEN_EFFICIENCY = 0.65` (module constant). -/
def REGEN_EFFICIENCY : ℚ := 65/100

/-- `AUX_POWER_KW = 0.4` (module constant). -/
def AUX_POWER_KW : ℚ := 4/10

/-- `RESERVE_SOC_PCT = 5.0` (module constant). -/
def RESERVE_SOC_PCT : ℚ := 5

/-- The literal `9.81` used for gravitational acceleration in
`compute_energy_consumption_kwh_per_km`. -/
def GRAVITY : ℚ := 981/100

/-- The literal `0.5` floor applied to total power in
`compute_energy_consumption_kwh_per_km`
(`p_total = max(..., 0.5)`). -/
def POWER_FLOOR_KW : ℚ := 5/10

/-- `HVAC_POWER_MAP`: the dict of half-open temperature bands `(lo, hi)`
mapped to HVAC power, in insertion order (Python dicts iterate in insertion
order). -/
def HVAC_POWER_MAP : List ((ℚ × ℚ) × ℚ) :=
  [((-30, -10), 5), ((-10, 0), 4), ((0, 5), 3), ((5, 12), 15/10),
   ((12, 22), 3/10), ((22, 28), 15/10), ((28, 35), 3), ((35, 50), 45/10)]

/-- `estimate_hvac_power(temp_c)`: scan the bands in insertion order, return
the power of the first band with `lo <= temp_c < hi`; fall back to `2.0`. -/
def estimate_hvac_power (temp_c : ℚ) : ℚ :=
  match HVAC_POWER_MAP.find?
      (fun b => decide (b.1.1 ≤ temp_c) && decide (temp_c < b.1.2)) with
  | some b => b.2
  | none => 2

/-- `compute_energy_consumption_kwh_per_km(speed_kmh, temp_c, wind_ms, elev)`:
the physics model, transcribed line by line. -/
def compute_energy_consumption_kwh_per_km
    (speed_kmh temp_c wind_ms elev : ℚ) : ℚ :=
  let v_ms := speed_kmh / (36/10)
  let effective_v := v_ms + wind_ms * (5/10)
  let f_aero := (1/2) * AIR_DENSITY_KG_M3 * DRAG_COEFFICIENT * FRONTAL_AREA_M2
      * effective_v ^ 2
  let f_roll := ROLLING_RESISTANCE * VEHICLE_MASS_KG * GRAVITY
  let f_grade := VEHICLE_MASS_KG * GRAVITY * (elev / 1000)
  let f_total := f_aero + f_roll + max f_grade 0
  let regen_recovery :=
    if f_grade < 0 then |f_grade| * v_ms * REGEN_EFFICIENCY / 1000 else 0
  let p_mech := f_total * v_ms / 1000
  let p_elec := p_mech / DRIVETRAIN_EFFICIENCY
  let p_hvac := estimate_hvac_power temp_c
  let p_total := max (p_elec + p_hvac + AUX_POWER_KW - regen_recovery)
      POWER_FLOOR_KW
  p_total / speed_kmh

/-- The three-speed weighted average consumption computed inside
`calculate_range_km` (lines `c1`, `c2`, `c3`, `avg`). -/
def weightedAvgConsumption (temp_c wind_ms : ℚ) : ℚ :=
  let c1 := compute_energy_consumption_kwh_per_km 35 temp_c wind_ms 2
  let c2 := compute_energy_consumption_kwh_per_km 60 temp_c wind_ms 5
  let c3 := compute_energy_consumption_kwh_per_km 100 temp_c wind_ms 3
  (40/100) * c1 + (40/100) * c2 + (20/100) * c3

/-- `calculate_range_km(soc, soh, temp_c, wind_ms, energy_fraction)`. -/
def calculate_range_km (soc soh temp_c wind_ms energy_fraction : ℚ) : ℚ :=
  let usable_soc := max (soc - RESERVE_SOC_PCT) 0
  let usable_kwh := BATTERY_CAPACITY_KWH * (soh / 100) * (usable_soc / 100)
      * energy_fraction
  let avg := weightedAvgConsumption temp_c wind_ms
  if avg > 0 then max (usable_kwh / avg) 0 else 0

/-- The three exception classes caught by `fetch_valhalla_isodistance`:
`requests.exceptions.ConnectionError`, `requests.exceptions.HTTPError`
(non-success status raised by `raise_for_status`), and the bare `Exception`
handler (any other failure, including a malformed response body). -/
inductive EngineFailure
  | connectionError
  | httpError
  | otherFailure
deriving DecidableEq

/-- `geom_by_distance[float(contour_val)] = geom`: one Python dict
assignment.  An existing key keeps its position and gets the new value; a
fresh key is appended (Python dicts preserve insertion order). -/
def dictInsert {G : Type} (m : List (ℚ × G)) (k : ℚ) (v : G) : List (ℚ × G) :=
  if m.any (fun p => decide (p.1 = k)) then
    m.map (fun p => if p.1 = k then (k, v) else p)
  else m ++ [(k, v)]

/-- The `geom_by_distance` dict built from the response features (the pairs
`(float(contour_val), geom)` of features carrying both a contour value and a
geometry, in feature order). -/
def buildGeomByDistance (G : Type) (features : List (ℚ × G)) : List (ℚ × G) :=
  features.foldl (fun m p => dictInsert m p.1 p.2) []

/-- The inner matching loop of `fetch_valhalla_isodistance`: scan
`geom_by_distance` in order and take the first geometry whose contour
distance is within `1.0` km of the requested distance `d`
(`abs(vd - d) < 1.0`), else `None`. -/
def findMatch (G : Type) (pairs : List (ℚ × G)) (d : ℚ) : Option G :=
  (pairs.find? (fun p => decide (|p.1 - d| < 1))).map Prod.snd

/-- `fetch_valhalla_isodistance(lat, lon, distances_km)` with the network
interaction made explicit: `response` is either the parsed feature pairs of
a successful call or the caught exception.  Every `except` arm returns
`[None] * len(distances_km)`. -/
def fetch_valhalla_isodistance (G : Type) (distances_km : List ℚ)
    (response : Except EngineFailure (List (ℚ × G))) : List (Option G) :=
  match response with
  | .ok features =>
      let geom_by_distance := buildGeomByDistance G features
      distances_km.map (fun d => findMatch G geom_by_distance d)
  | .error _ => List.replicate distances_km.length none

/-- One entry of `band_results` in `main`: the fields of an `ENERGY_BANDS`
dict that the core reads or writes (`label` and `color` are display-only
strings and are omitted). -/
structure Band (G : Type) where
  fraction : ℚ
  range_km : ℚ
  geometry : Option G
deriving DecidableEq

/-- The `fraction` fields of `ENERGY_BANDS`, in list order. -/
def ENERGY_BAND_FRACTIONS : List ℚ := [1, 75/100, 50/100, 25/100]

/-- Round-half-to-even on a rational, modelling Python's `round` (ties go to
the even neighbour; the binary-float representation quirks of CPython's
`round` are abstracted to exact decimal rounding). -/
def roundHalfEven (q : ℚ) : ℤ :=
  let f := ⌊q⌋
  if q - f < 1/2 then f
  else if 1/2 < q - f then f + 1
  else if f % 2 = 0 then f else f + 1

/-- `round(x, 1)`: round to one decimal place. -/
def pyRound1 (q : ℚ) : ℚ := (roundHalfEven (q * 10) : ℚ) / 10

/-- The four band ranges computed by the `main` loop, in `ENERGY_BANDS`
order (the Band Planner). -/
def planBands (soc soh temp_c wind_ms : ℚ) : List ℚ :=
  ENERGY_BAND_FRACTIONS.map (fun f => calculate_range_km soc soh temp_c wind_ms f)

/-- `band_results` right after the range loop of `main`: each band carries
its fraction and computed range; no geometry has been attached yet (Python
leaves the `geometry` key unset, read back with `.get`, i.e. `None`). -/
def bandResults (G : Type) (soc soh temp_c wind_ms : ℚ) : List (Band G) :=
  ENERGY_BAND_FRACTIONS.map (fun f =>
    { fraction := f, range_km := calculate_range_km soc soh temp_c wind_ms f,
      geometry := none })

/-- The filtering loop of `main`: walk the bands with their indices
(starting at `i`), appending `round(range_km, 1)` to `distances_km` and the
index to `valid_indices` when `range_km >= 1.0`; bands below the threshold
get no request (their geometry stays absent). -/
def collectValid {G : Type} : List (Band G) → ℕ → List ℚ × List ℕ
  | [], _ => ([], [])
  | b :: bs, i =>
      let rest := collectValid bs (i + 1)
      if 1 ≤ b.range_km then (pyRound1 b.range_km :: rest.1, i :: rest.2)
      else rest

/-- The distances sent in the single batched isodistance request. -/
def requestDistances (G : Type) (soc soh temp_c wind_ms : ℚ) : List ℚ :=
  (collectValid (bandResults G soc soh temp_c wind_ms) 0).1

/-- `band_results[idx]["geometry"] = geom` for one index. -/
def setGeom {G : Type} : List (Band G) → ℕ → Option G → List (Band G)
  | [], _, _ => []
  | b :: bs, 0, g => { b with geometry := g } :: bs
  | b :: bs, n + 1, g => b :: setGeom bs n g

/-- `for idx, geom in zip(valid_indices, geometries): band_results[idx]["geometry"] = geom`. -/
def attachGeoms {G : Type} (bands : List (Band G))
    (updates : List (ℕ × Option G)) : List (Band G) :=
  updates.foldl (fun bs p => setGeom bs p.1 p.2) bands

/-- The band pipeline of `main` from the computed vehicle/weather inputs to
the fully assembled `band_results` (ranges computed, isodistance request
issued for the valid bands, geometries attached positionally). -/
def mainBands (G : Type) (soc soh temp_c wind_ms : ℚ)
    (response : Except EngineFailure (List (ℚ × G))) : List (Band G) :=
  let band_results := bandResults G soc soh temp_c wind_ms
  let dv := collectValid band_results 0
  if dv.1.isEmpty then band_results
  else attachGeoms band_results
    (dv.2.zip (fetch_valhalla_isodistance G dv.1 response))

end EvRange

/-! ## Helper lemmas -/

namespace EvRange

/-- The total power term is floored at `0.5` kW, so consumption is at least
the floor divided by the speed. -/
theorem power_floor_le (speed_kmh temp_c wind_ms elev : ℚ) (hs : 0 < speed_kmh) :
    POWER_FLOOR_KW / speed_kmh ≤
      compute_energy_consumption_kwh_per_km speed_kmh temp_c wind_ms elev := by
  simp only [compute_energy_consumption_kwh_per_km]
  exact (div_le_div_iff_of_pos_right hs).mpr (le_max_right _ _)

/-- Consumption is strictly positive at any positive speed. -/
theorem cons_pos (speed_kmh temp_c wind_ms elev : ℚ) (hs : 0 < speed_kmh) :
    0 < compute_energy_consumption_kwh_per_km speed_kmh temp_c wind_ms elev := by
  refine lt_of_lt_of_le ?_ (power_floor_le speed_kmh temp_c wind_ms elev hs)
  have h : (0:ℚ) < POWER_FLOOR_KW := by norm_num [POWER_FLOOR_KW]
  positivity

/-- The three-speed weighted average consumption is strictly positive. -/
theorem avg_pos (temp_c wind_ms : ℚ) : 0 < weightedAvgConsumption temp_c wind_ms := by
  have h1 := cons_pos 35 temp_c wind_ms 2 (by norm_num)
  have h2 := cons_pos 60 temp_c wind_ms 5 (by norm_num)
  have h3 := cons_pos 100 temp_c wind_ms 3 (by norm_num)
  simp only [weightedAvgConsumption]
  positivity

/-- Since the average is always positive, the defensive `else 0` branch of
`calculate_range_km` is dead and the range is the clamped quotient. -/
theorem range_eq (soc soh temp_c wind_ms f : ℚ) :
    calculate_range_km soc soh temp_c wind_ms f =
      max (BATTERY_CAPACITY_KWH * (soh / 100) * (max (soc - RESERVE_SOC_PCT) 0 / 100)
        * f / weightedAvgConsumption temp_c wind_ms) 0 := by
  simp only [calculate_range_km]
  rw [if_pos (avg_pos temp_c wind_ms)]

/-- At or below the reserve threshold the usable state of charge clamps to
zero, and so does the range. -/
theorem range_zero_of_reserve (soc soh temp_c wind_ms f : ℚ)
    (h : soc ≤ RESERVE_SOC_PCT) :
    calculate_range_km soc soh temp_c wind_ms f = 0 := by
  simp only [calculate_range_km]
  have h0 : max (soc - RESERVE_SOC_PCT) 0 = 0 := max_eq_right (by linarith)
  rw [h0]
  simp

/-- Consumption is monotone in the wind speed (for non-negative winds). -/
theorem cons_mono_wind (speed_kmh temp_c elev w1 w2 : ℚ) (hs : 0 < speed_kmh)
    (hw1 : 0 ≤ w1) (hw : w1 ≤ w2) :
    compute_energy_consumption_kwh_per_km speed_kmh temp_c w1 elev ≤
      compute_energy_consumption_kwh_per_km speed_kmh temp_c w2 elev := by
  simp only [compute_energy_consumption_kwh_per_km]
  have hv : 0 < speed_kmh / (36/10) := by positivity
  have heff : (0:ℚ) ≤ speed_kmh / (36/10) + w1 * (5/10) := by positivity
  have heff2 : speed_kmh / (36/10) + w1 * (5/10) ≤ speed_kmh / (36/10) + w2 * (5/10) := by
    nlinarith
  gcongr
  · norm_num [DRIVETRAIN_EFFICIENCY]
  · norm_num [AIR_DENSITY_KG_M3, DRAG_COEFFICIENT, FRONTAL_AREA_M2]

/-- Consumption is monotone in the grade (for non-negative grades, where the
regen branch is inactive). -/
theorem cons_mono_grade (speed_kmh temp_c wind_ms g1 g2 : ℚ) (hs : 0 < speed_kmh)
    (hg1 : 0 ≤ g1) (hg : g1 ≤ g2) :
    compute_energy_consumption_kwh_per_km speed_kmh temp_c wind_ms g1 ≤
      compute_energy_consumption_kwh_per_km speed_kmh temp_c wind_ms g2 := by
  simp only [compute_energy_consumption_kwh_per_km]
  have hMG : (0:ℚ) ≤ VEHICLE_MASS_KG * GRAVITY := by norm_num [VEHICLE_MASS_KG, GRAVITY]
  have hfg1 : (0:ℚ) ≤ VEHICLE_MASS_KG * GRAVITY * (g1 / 1000) :=
    mul_nonneg hMG (div_nonneg hg1 (by norm_num))
  have hfg2 : (0:ℚ) ≤ VEHICLE_MASS_KG * GRAVITY * (g2 / 1000) :=
    mul_nonneg hMG (div_nonneg (le_trans hg1 hg) (by norm_num))
  rw [if_neg (not_lt.mpr hfg1), if_neg (not_lt.mpr hfg2)]
  have hmono : VEHICLE_MASS_KG * GRAVITY * (g1 / 1000) ≤
      VEHICLE_MASS_KG * GRAVITY * (g2 / 1000) :=
    mul_le_mul_of_nonneg_left
      ((div_le_div_iff_of_pos_right (by norm_num : (0:ℚ) < 1000)).mpr hg) hMG
  have hv : 0 < speed_kmh / (36/10) := by positivity
  gcongr
  norm_num [DRIVETRAIN_EFFICIENCY]

end EvRange

namespace EvRange

/-- `estimate_hvac_power` as an explicit piecewise function of the
temperature (the bands written out in dict order). -/
theorem hvac_unfold (t : ℚ) : estimate_hvac_power t =
    if -30 ≤ t ∧ t < -10 then 5 else if -10 ≤ t ∧ t < 0 then 4
    else if 0 ≤ t ∧ t < 5 then 3 else if 5 ≤ t ∧ t < 12 then 15/10
    else if 12 ≤ t ∧ t < 22 then 3/10 else if 22 ≤ t ∧ t < 28 then 15/10
    else if 28 ≤ t ∧ t < 35 then 3 else if 35 ≤ t ∧ t < 50 then 45/10
    else 2 := by
  split_ifs with h1 h2 h3 h4 h5 h6 h7 h8
  · obtain ⟨a, b⟩ := h1
    simp [estimate_hvac_power, HVAC_POWER_MAP, List.find?, a, b]
  · obtain ⟨a, b⟩ := h2
    simp [estimate_hvac_power, HVAC_POWER_MAP, List.find?, a, b,
      show ¬ t < -10 by linarith]
  · obtain ⟨a, b⟩ := h3
    simp [estimate_hvac_power, HVAC_POWER_MAP, List.find?, a, b,
      show ¬ t < -10 by linarith, show ¬ t < 0 by linarith]
  · obtain ⟨a, b⟩ := h4
    simp [estimate_hvac_power, HVAC_POWER_MAP, List.find?, a, b,
      show ¬ t < -10 by linarith, show ¬ t < 0 by linarith,
      show ¬ t < 5 by linarith]
  · obtain ⟨a, b⟩ := h5
    simp [estimate_hvac_power, HVAC_POWER_MAP, List.find?, a, b,
      show ¬ t < -10 by linarith, show ¬ t < 0 by linarith,
      show ¬ t < 5 by linarith, show ¬ t < 12 by linarith]
  · obtain ⟨a, b⟩ := h6
    simp [estimate_hvac_power, HVAC_POWER_MAP, List.find?, a, b,
      show ¬ t < -10 by linarith, show ¬ t < 0 by linarith,
      show ¬ t < 5 by linarith, show ¬ t < 12 by linarith,
      show ¬ t < 22 by linarith]
  · obtain ⟨a, b⟩ := h7
    simp [estimate_hvac_power, HVAC_POWER_MAP, List.find?, a, b,
      show ¬ t < -10 by linarith, show ¬ t < 0 by linarith,
      show ¬ t < 5 by linarith, show ¬ t < 12 by linarith,
      show ¬ t < 22 by linarith, show ¬ t < 28 by linarith]
  · obtain ⟨a, b⟩ := h8
    simp [estimate_hvac_power, HVAC_POWER_MAP, List.find?, a, b,
      show ¬ t < -10 by linarith, show ¬ t < 0 by linarith,
      show ¬ t < 5 by linarith, show ¬ t < 12 by linarith,
      show ¬ t < 22 by linarith, show ¬ t < 28 by linarith,
      show ¬ t < 35 by linarith]
  · rcases lt_or_le t (-30) with h | h
    · simp [estimate_hvac_power, HVAC_POWER_MAP, List.find?,
        show ¬ (-30:ℚ) ≤ t by linarith, show ¬ (-10:ℚ) ≤ t by linarith,
        show ¬ (0:ℚ) ≤ t by linarith, show ¬ (5:ℚ) ≤ t by linarith,
        show ¬ (12:ℚ) ≤ t by linarith, show ¬ (22:ℚ) ≤ t by linarith,
        show ¬ (28:ℚ) ≤ t by linarith, show ¬ (35:ℚ) ≤ t by linarith]
    · have a1 : ¬ t < -10 := fun hb => h1 ⟨h, hb⟩
      have a2 : ¬ t < 0 := fun hb => h2 ⟨by linarith [not_lt.mp a1], hb⟩
      have a3 : ¬ t < 5 := fun hb => h3 ⟨not_lt.mp a2, hb⟩
      have a4 : ¬ t < 12 := fun hb => h4 ⟨not_lt.mp a3, hb⟩
      have a5 : ¬ t < 22 := fun hb => h5 ⟨not_lt.mp a4, hb⟩
      have a6 : ¬ t < 28 := fun hb => h6 ⟨not_lt.mp a5, hb⟩
      have a7 : ¬ t < 35 := fun hb => h7 ⟨not_lt.mp a6, hb⟩
      have a8 : ¬ t < 50 := fun hb => h8 ⟨not_lt.mp a7, hb⟩
      simp [estimate_hvac_power, HVAC_POWER_MAP, List.find?,
        a1, a2, a3, a4, a5, a6, a7, a8]

/-- Matching succeeds on the head pair when it is within tolerance. -/
theorem findMatch_cons_pos {G : Type} (q : ℚ × G) (rest : List (ℚ × G)) (d : ℚ)
    (h : |q.1 - d| < 1) : findMatch G (q :: rest) d = some q.2 := by
  simp [findMatch, List.find?, h]

/-- Matching skips the head pair when it is out of tolerance. -/
theorem findMatch_cons_neg {G : Type} (q : ℚ × G) (rest : List (ℚ × G)) (d : ℚ)
    (h : ¬ |q.1 - d| < 1) : findMatch G (q :: rest) d = findMatch G rest d := by
  simp [findMatch, List.find?, h]

end EvRange

namespace EvRange

/-- Writing one geometry does not change any band's numeric range. -/
theorem setGeom_map_range {G : Type} (bs : List (Band G)) (i : ℕ) (g : Option G) :
    (setGeom bs i g).map Band.range_km = bs.map Band.range_km := by
  induction bs generalizing i with
  | nil => rfl
  | cons b bs ih =>
      cases i with
      | zero => rfl
      | succ n => simp [setGeom, ih]

/-- Writing one geometry leaves every other index untouched. -/
theorem setGeom_getElem_ne {G : Type} (bs : List (Band G)) (i j : ℕ) (g : Option G)
    (h : j ≠ i) : (setGeom bs i g)[j]? = bs[j]? := by
  induction bs generalizing i j with
  | nil => rfl
  | cons b bs ih =>
      cases i with
      | zero =>
          cases j with
          | zero => exact absurd rfl h
          | succ m => simp [setGeom]
      | succ n =>
          cases j with
          | zero => simp [setGeom]
          | succ m => simpa [setGeom] using ih n m (fun hc => h (by omega))

/-- Writing an absent geometry preserves all-geometries-absent. -/
theorem setGeom_none_all {G : Type} (bs : List (Band G)) (i : ℕ)
    (h : ∀ b ∈ bs, b.geometry = none) :
    ∀ b ∈ setGeom bs i none, b.geometry = none := by
  induction bs generalizing i with
  | nil => intro b hb; simp [setGeom] at hb
  | cons b bs ih =>
      cases i with
      | zero =>
          intro c hc
          rcases List.mem_cons.mp hc with h1 | h1
          · rw [h1]
          · exact h c (List.mem_cons_of_mem _ h1)
      | succ n =>
          intro c hc
          rcases List.mem_cons.mp hc with h1 | h1
          · exact h c (h1 ▸ List.mem_cons_self _ _)
          · exact ih n (fun x hx => h x (List.mem_cons_of_mem _ hx)) c h1

/-- The geometry-attachment loop does not change any band's numeric range. -/
theorem attachGeoms_map_range {G : Type} (bs : List (Band G))
    (us : List (ℕ × Option G)) :
    (attachGeoms bs us).map Band.range_km = bs.map Band.range_km := by
  induction us generalizing bs with
  | nil => rfl
  | cons u us ih =>
      simp only [attachGeoms, List.foldl_cons] at *
      rw [ih, setGeom_map_range]

/-- An index not named by any update keeps its band unchanged. -/
theorem attachGeoms_getElem_not_mem {G : Type} (bs : List (Band G))
    (us : List (ℕ × Option G)) (j : ℕ) (h : ∀ u ∈ us, u.1 ≠ j) :
    (attachGeoms bs us)[j]? = bs[j]? := by
  induction us generalizing bs with
  | nil => rfl
  | cons u us ih =>
      simp only [attachGeoms, List.foldl_cons] at *
      rw [ih _ (fun x hx => h x (List.mem_cons_of_mem _ hx)),
        setGeom_getElem_ne _ _ _ _ (fun hc => h u (List.mem_cons_self _ _) hc.symm)]

/-- Attaching only absent geometries preserves all-geometries-absent. -/
theorem attachGeoms_none_all {G : Type} (bs : List (Band G))
    (us : List (ℕ × Option G)) (hu : ∀ u ∈ us, u.2 = none)
    (hb : ∀ b ∈ bs, b.geometry = none) :
    ∀ b ∈ attachGeoms bs us, b.geometry = none := by
  induction us generalizing bs with
  | nil => exact hb
  | cons u us ih =>
      simp only [attachGeoms, List.foldl_cons] at *
      refine ih _ (fun x hx => hu x (List.mem_cons_of_mem _ hx)) ?_
      have h2 := hu u (List.mem_cons_self _ _)
      rw [h2]
      exact setGeom_none_all bs u.1 hb

/-- The collected distances are exactly the rounded ranges of the bands at
or above the threshold, in band order. -/
theorem collectValid_fst {G : Type} (bs : List (Band G)) (i : ℕ) :
    (collectValid bs i).1 =
      (bs.filter (fun b => decide (1 ≤ b.range_km))).map
        (fun b => pyRound1 b.range_km) := by
  induction bs generalizing i with
  | nil => rfl
  | cons b bs ih =>
      by_cases h : 1 ≤ b.range_km
      · simp [collectValid, h, List.filter_cons, ih (i+1)]
      · simp [collectValid, h, List.filter_cons, ih (i+1)]

/-- Every collected index points at a band whose range is at or above the
threshold. -/
theorem collectValid_snd_mem {G : Type} (bs : List (Band G)) (i j : ℕ)
    (h : j ∈ (collectValid bs i).2) :
    i ≤ j ∧ ∃ b, bs[j - i]? = some b ∧ 1 ≤ b.range_km := by
  induction bs generalizing i with
  | nil => simp [collectValid] at h
  | cons b bs ih =>
      by_cases hc : 1 ≤ b.range_km
      · simp only [collectValid, hc, if_pos] at h
        rcases List.mem_cons.mp h with h1 | h1
        · subst h1
          exact ⟨le_rfl, b, by simp, hc⟩
        · obtain ⟨hij, c, hget, hr⟩ := ih (i+1) h1
          refine ⟨by omega, c, ?_, hr⟩
          have : j - i = (j - (i+1)) + 1 := by omega
          rw [this]
          simpa using hget
      · simp only [collectValid, hc, if_neg, not_false_iff] at h
        obtain ⟨hij, c, hget, hr⟩ := ih (i+1) h
        refine ⟨by omega, c, ?_, hr⟩
        have : j - i = (j - (i+1)) + 1 := by omega
        rw [this]
        simpa using hget

/-- Freshly planned bands carry no geometry. -/
theorem bandResults_geometry {G : Type} (soc soh temp_c wind_ms : ℚ) :
    ∀ b ∈ bandResults G soc soh temp_c wind_ms, b.geometry = none := by
  intro b hb
  obtain ⟨f, hf, rfl⟩ := List.mem_map.mp hb
  rfl

/-- The ranges of the planned bands are the Band Planner's ranges. -/
theorem bandResults_map_range {G : Type} (soc soh temp_c wind_ms : ℚ) :
    (bandResults G soc soh temp_c wind_ms).map Band.range_km =
      planBands soc soh temp_c wind_ms := by
  simp [bandResults, planBands, List.map_map]

/-- The geometry-attachment loop preserves each band's numeric range,
index by index. -/
theorem attachGeoms_getElem_range {G : Type} (bs : List (Band G))
    (us : List (ℕ × Option G)) (i : ℕ) :
    ((attachGeoms bs us)[i]?).map Band.range_km = (bs[i]?).map Band.range_km := by
  calc ((attachGeoms bs us)[i]?).map Band.range_km
      = ((attachGeoms bs us).map Band.range_km)[i]? := (List.getElem?_map _ _ _).symm
    _ = (bs.map Band.range_km)[i]? := by rw [attachGeoms_map_range]
    _ = (bs[i]?).map Band.range_km := List.getElem?_map _ _ _

end EvRange

/-! ## Claim theorems -/

namespace EvRange

/-- C1 (counterexample): the claim "the returned energy-per-distance value
is strictly positive and strictly greater than the enforced floor" is false
at the default highway operating point (speed 60 km/h, 15 °C, no wind, flat
road): consumption there is about 0.117 kWh/km, below the floor constant
`0.5` that the code enforces on the power term. -/
theorem c1_counterexample :
    ¬ ((0:ℚ) < compute_energy_consumption_kwh_per_km 60 15 0 0 ∧
        POWER_FLOOR_KW < compute_energy_consumption_kwh_per_km 60 15 0 0) := by
  norm_num [compute_energy_consumption_kwh_per_km, estimate_hvac_power,
    HVAC_POWER_MAP, List.find?, AIR_DENSITY_KG_M3, DRAG_COEFFICIENT,
    FRONTAL_AREA_M2, ROLLING_RESISTANCE, VEHICLE_MASS_KG, GRAVITY,
    DRIVETRAIN_EFFICIENCY, REGEN_EFFICIENCY, AUX_POWER_KW, POWER_FLOOR_KW]

/-- C1 (amended): for every input with speed strictly greater than 0 (any
temperature, wind, grade), the Energy Consumption Model returns a value
that is at least the enforced power floor divided by the speed — the floor
is applied to total power, not to energy-per-distance — and hence strictly
positive. -/
theorem c1_consumption_floored_positive
    (speed_kmh temp_c wind_ms elev : ℚ) (hs : 0 < speed_kmh) :
    POWER_FLOOR_KW / speed_kmh ≤
      compute_energy_consumption_kwh_per_km speed_kmh temp_c wind_ms elev ∧
    0 < compute_energy_consumption_kwh_per_km speed_kmh temp_c wind_ms elev :=
  ⟨power_floor_le speed_kmh temp_c wind_ms elev hs,
   cons_pos speed_kmh temp_c wind_ms elev hs⟩

/-- C1 witness: the amended bound instantiated at speed 60 km/h, 15 °C,
no wind, flat road. -/
theorem c1_consumption_floored_positive_witness :
    (0:ℚ) < 60 ∧
    POWER_FLOOR_KW / 60 ≤ compute_energy_consumption_kwh_per_km 60 15 0 0 ∧
    0 < compute_energy_consumption_kwh_per_km 60 15 0 0 :=
  ⟨by norm_num, c1_consumption_floored_positive 60 15 0 0 (by norm_num)⟩

/-- C2: for every state of charge at or below the 5 % reserve threshold, and
any state of health, temperature, wind and usable-energy fraction, the Range
Estimator returns exactly 0 km. -/
theorem c2_zero_range_at_reserve (soc soh temp_c wind_ms f : ℚ)
    (h : soc ≤ RESERVE_SOC_PCT) :
    calculate_range_km soc soh temp_c wind_ms f = 0 :=
  range_zero_of_reserve soc soh temp_c wind_ms f h

/-- C2 witness: at exactly the reserve threshold the range is 0. -/
theorem c2_zero_range_at_reserve_witness :
    (5:ℚ) ≤ RESERVE_SOC_PCT ∧ calculate_range_km 5 95 15 0 1 = 0 :=
  ⟨by norm_num [RESERVE_SOC_PCT],
   c2_zero_range_at_reserve 5 95 15 0 1 (by norm_num [RESERVE_SOC_PCT])⟩

/-- C3: holding state of charge, state of health, temperature and wind
fixed, the Range Estimator is monotonically non-decreasing in the
usable-energy fraction over (0, 1]. -/
theorem c3_range_mono_in_fraction (soc soh temp_c wind_ms f1 f2 : ℚ)
    (h0 : 0 < f1) (h12 : f1 ≤ f2) (h1 : f2 ≤ 1) :
    calculate_range_km soc soh temp_c wind_ms f1 ≤
      calculate_range_km soc soh temp_c wind_ms f2 := by
  rw [range_eq, range_eq]
  set k := BATTERY_CAPACITY_KWH * (soh / 100) * (max (soc - RESERVE_SOC_PCT) 0 / 100)
    with hk
  have havg := avg_pos temp_c wind_ms
  rcases le_or_lt 0 k with hk0 | hk0
  · have : k * f1 ≤ k * f2 := mul_le_mul_of_nonneg_left h12 hk0
    exact max_le_max ((div_le_div_iff_of_pos_right havg).mpr this) le_rfl
  · have e1 : k * f1 / weightedAvgConsumption temp_c wind_ms ≤ 0 := by
      apply div_nonpos_of_nonpos_of_nonneg
      · nlinarith
      · linarith
    have e2 : k * f2 / weightedAvgConsumption temp_c wind_ms ≤ 0 := by
      apply div_nonpos_of_nonpos_of_nonneg
      · nlinarith
      · linarith
    rw [max_eq_right e1, max_eq_right e2]

/-- C3 witness: the 25 % band never exceeds the 100 % band at the default
vehicle and weather conditions. -/
theorem c3_range_mono_in_fraction_witness :
    (0:ℚ) < 25/100 ∧ (25:ℚ)/100 ≤ 1 ∧ (1:ℚ) ≤ 1 ∧
    calculate_range_km 80 95 15 0 (25/100) ≤ calculate_range_km 80 95 15 0 1 :=
  ⟨by norm_num, by norm_num, le_rfl,
   c3_range_mono_in_fraction 80 95 15 0 (25/100) 1 (by norm_num) (by norm_num) le_rfl⟩

/-- C4: the Range Estimator computes usable energy as
capacity · (soh/100) · (max(soc − reserve, 0)/100) · fraction and divides it
by the three-speed weighted average consumption (clamped at 0, which is
inactive for non-negative usable energy); at capacity 100 kWh, SoC 80 %,
SoH 95 %, reserve 5 % and fraction 1.00 the usable energy is exactly
285/4 = 71.25 kWh and the returned range is exactly 71.25 divided by the
weighted average consumption at 15 °C and 0 m/s wind. -/
theorem c4_usable_energy_golden_value :
    (∀ soc soh temp_c wind_ms f : ℚ,
      calculate_range_km soc soh temp_c wind_ms f =
        max (BATTERY_CAPACITY_KWH * (soh / 100) * (max (soc - RESERVE_SOC_PCT) 0 / 100)
          * f / weightedAvgConsumption temp_c wind_ms) 0) ∧
    BATTERY_CAPACITY_KWH * ((95:ℚ) / 100) * (max ((80:ℚ) - RESERVE_SOC_PCT) 0 / 100) * 1
      = 285/4 ∧
    calculate_range_km 80 95 15 0 1 = (285/4) / weightedAvgConsumption 15 0 := by
  have hx : BATTERY_CAPACITY_KWH * ((95:ℚ) / 100)
      * (max ((80:ℚ) - RESERVE_SOC_PCT) 0 / 100) * 1 = 285/4 := by
    norm_num [BATTERY_CAPACITY_KWH, RESERVE_SOC_PCT]
  refine ⟨range_eq, hx, ?_⟩
  rw [range_eq, hx]
  have h := avg_pos 15 0
  exact max_eq_left (by positivity)

/-- C5: holding the other inputs fixed (speed strictly greater than 0, any
temperature), consumption is monotone in the effective headwind (larger
non-negative wind) and monotone in the grade (for grades g2 ≥ g1 ≥ 0,
consumption at g2 ≥ consumption at g1). -/
theorem c5_consumption_mono_wind_grade
    (speed_kmh temp_c wind_ms elev w1 w2 g1 g2 : ℚ) (hs : 0 < speed_kmh) :
    (0 ≤ w1 → w1 ≤ w2 →
      compute_energy_consumption_kwh_per_km speed_kmh temp_c w1 elev ≤
        compute_energy_consumption_kwh_per_km speed_kmh temp_c w2 elev) ∧
    (0 ≤ g1 → g1 ≤ g2 →
      compute_energy_consumption_kwh_per_km speed_kmh temp_c wind_ms g1 ≤
        compute_energy_consumption_kwh_per_km speed_kmh temp_c wind_ms g2) :=
  ⟨fun hw1 hw => cons_mono_wind speed_kmh temp_c elev w1 w2 hs hw1 hw,
   fun hg1 hg => cons_mono_grade speed_kmh temp_c wind_ms g1 g2 hs hg1 hg⟩

/-- C5 witness: both monotonicities instantiated at 60 km/h and 15 °C
(wind 0 → 3 m/s on flat road; grade 0 → 5 m/km with no wind). -/
theorem c5_consumption_mono_wind_grade_witness :
    (0:ℚ) < 60 ∧
    compute_energy_consumption_kwh_per_km 60 15 0 0 ≤
      compute_energy_consumption_kwh_per_km 60 15 3 0 ∧
    compute_energy_consumption_kwh_per_km 60 15 0 0 ≤
      compute_energy_consumption_kwh_per_km 60 15 0 5 :=
  ⟨by norm_num,
   (c5_consumption_mono_wind_grade 60 15 0 0 0 3 0 5 (by norm_num)).1
     le_rfl (by norm_num),
   (c5_consumption_mono_wind_grade 60 15 0 0 0 3 0 5 (by norm_num)).2
     le_rfl (by norm_num)⟩

end EvRange

namespace EvRange

/-- C6: for a requested distance the reconciler attaches the first returned
(distance, geometry) pair whose absolute distance difference is under
1.0 km, and leaves the geometry absent exactly when no returned pair is
within that tolerance. -/
theorem c6_first_match_within_tolerance (G : Type) (d : ℚ) :
    (∀ (pre post : List (ℚ × G)) (p : ℚ × G),
      (∀ q ∈ pre, ¬ |q.1 - d| < 1) → |p.1 - d| < 1 →
        findMatch G (pre ++ p :: post) d = some p.2) ∧
    (∀ pairs : List (ℚ × G),
      findMatch G pairs d = none ↔ ∀ q ∈ pairs, ¬ |q.1 - d| < 1) := by
  constructor
  · intro pre post p
    induction pre with
    | nil =>
        intro _ hp
        rw [List.nil_append]
        exact findMatch_cons_pos p post d hp
    | cons q qs ih =>
        intro hpre hp
        rw [List.cons_append,
          findMatch_cons_neg q _ d (hpre q (List.mem_cons_self _ _))]
        exact ih (fun x hx => hpre x (List.mem_cons_of_mem _ hx)) hp
  · intro pairs
    simp only [findMatch, Option.map_eq_none']
    rw [List.find?_eq_none]
    simp

/-- C6 witness: a request of 150.0 km with a returned contour at 150.3 km is
matched, and a request of 10.0 km with only a returned contour at 50.0 km
gets absent geometry. -/
theorem c6_first_match_within_tolerance_witness :
    findMatch ℕ [(1503/10, 7)] 150 = some 7 ∧ findMatch ℕ [(50, 7)] 10 = none := by
  constructor
  · have h := (c6_first_match_within_tolerance ℕ 150).1 [] [] (1503/10, 7)
      (fun q hq => absurd hq (List.not_mem_nil q)) (by norm_num [abs_lt])
    simpa using h
  · refine ((c6_first_match_within_tolerance ℕ 10).2 [(50, 7)]).mpr ?_
    intro q hq
    rcases List.mem_singleton.mp hq with rfl
    norm_num [abs_lt]

/-- C7: on any failure reaching or parsing the routing engine, the fetch
returns one absent geometry per requested distance (no exception escapes in
the model, which is total), and the assembled bands keep their numeric
ranges with every geometry absent. -/
theorem c7_engine_failure_degrades (G : Type) (soc soh temp_c wind_ms : ℚ)
    (e : EngineFailure) :
    (∀ ds : List ℚ, fetch_valhalla_isodistance G ds (.error e) =
      List.replicate ds.length none) ∧
    (mainBands G soc soh temp_c wind_ms (.error e)).map Band.range_km =
      planBands soc soh temp_c wind_ms ∧
    ∀ b ∈ mainBands G soc soh temp_c wind_ms (.error e), b.geometry = none := by
  refine ⟨fun ds => rfl, ?_, ?_⟩
  · simp only [mainBands]
    split_ifs with h
    · exact bandResults_map_range soc soh temp_c wind_ms
    · rw [attachGeoms_map_range]
      exact bandResults_map_range soc soh temp_c wind_ms
  · simp only [mainBands]
    split_ifs with h
    · exact bandResults_geometry soc soh temp_c wind_ms
    · refine attachGeoms_none_all _ _ ?_ (bandResults_geometry soc soh temp_c wind_ms)
      intro u hu
      have h2 := (List.of_mem_zip hu).2
      simp only [fetch_valhalla_isodistance] at h2
      exact List.eq_of_mem_replicate h2

/-- C7 witness: a connection failure on a single-distance request yields
exactly one absent geometry. -/
theorem c7_engine_failure_degrades_witness :
    fetch_valhalla_isodistance ℕ [150] (.error EngineFailure.connectionError) =
      [none] := by
  have h := (c7_engine_failure_degrades ℕ 80 95 15 0
    EngineFailure.connectionError).1 [150]
  simpa using h

/-- C8: the HVAC Power Estimator is total: any temperature inside a defined
half-open band `[lo, hi)` gets that band's power (the bands are disjoint, so
the band is unique), and any temperature outside all bands gets the fixed
fallback 2.0 kW. -/
theorem c8_hvac_total_coverage (t : ℚ) :
    (∀ b ∈ HVAC_POWER_MAP, b.1.1 ≤ t → t < b.1.2 → estimate_hvac_power t = b.2) ∧
    ((∀ b ∈ HVAC_POWER_MAP, ¬ (b.1.1 ≤ t ∧ t < b.1.2)) →
      estimate_hvac_power t = 2) := by
  constructor
  · intro b hb h1 h2
    fin_cases hb <;> norm_num at h1 h2 ⊢
    · rw [hvac_unfold, if_pos ⟨h1, h2⟩]
    · rw [hvac_unfold, if_neg (by rintro ⟨x, y⟩; linarith), if_pos ⟨h1, h2⟩]
    · rw [hvac_unfold, if_neg (by rintro ⟨x, y⟩; linarith),
        if_neg (by rintro ⟨x, y⟩; linarith), if_pos ⟨h1, h2⟩]
    · rw [hvac_unfold, if_neg (by rintro ⟨x, y⟩; linarith),
        if_neg (by rintro ⟨x, y⟩; linarith), if_neg (by rintro ⟨x, y⟩; linarith),
        if_pos ⟨h1, h2⟩]
      norm_num
    · rw [hvac_unfold, if_neg (by rintro ⟨x, y⟩; linarith),
        if_neg (by rintro ⟨x, y⟩; linarith), if_neg (by rintro ⟨x, y⟩; linarith),
        if_neg (by rintro ⟨x, y⟩; linarith), if_pos ⟨h1, h2⟩]
    · rw [hvac_unfold, if_neg (by rintro ⟨x, y⟩; linarith),
        if_neg (by rintro ⟨x, y⟩; linarith), if_neg (by rintro ⟨x, y⟩; linarith),
        if_neg (by rintro ⟨x, y⟩; linarith), if_neg (by rintro ⟨x, y⟩; linarith),
        if_pos ⟨h1, h2⟩]
      norm_num
    · rw [hvac_unfold, if_neg (by rintro ⟨x, y⟩; linarith),
        if_neg (by rintro ⟨x, y⟩; linarith), if_neg (by rintro ⟨x, y⟩; linarith),
        if_neg (by rintro ⟨x, y⟩; linarith), if_neg (by rintro ⟨x, y⟩; linarith),
        if_neg (by rintro ⟨x, y⟩; linarith), if_pos ⟨h1, h2⟩]
    · rw [hvac_unfold, if_neg (by rintro ⟨x, y⟩; linarith),
        if_neg (by rintro ⟨x, y⟩; linarith), if_neg (by rintro ⟨x, y⟩; linarith),
        if_neg (by rintro ⟨x, y⟩; linarith), if_neg (by rintro ⟨x, y⟩; linarith),
        if_neg (by rintro ⟨x, y⟩; linarith), if_neg (by rintro ⟨x, y⟩; linarith),
        if_pos ⟨h1, h2⟩]
      norm_num
  · intro hall
    simp only [HVAC_POWER_MAP, List.mem_cons, List.not_mem_nil, or_false,
      forall_eq_or_imp, forall_eq] at hall
    norm_num at hall
    obtain ⟨k1, k2, k3, k4, k5, k6, k7, k8⟩ := hall
    rw [hvac_unfold,
      if_neg (fun hc => absurd (k1 hc.1) (not_le.mpr hc.2)),
      if_neg (fun hc => absurd (k2 hc.1) (not_le.mpr hc.2)),
      if_neg (fun hc => absurd (k3 hc.1) (not_le.mpr hc.2)),
      if_neg (fun hc => absurd (k4 hc.1) (not_le.mpr hc.2)),
      if_neg (fun hc => absurd (k5 hc.1) (not_le.mpr hc.2)),
      if_neg (fun hc => absurd (k6 hc.1) (not_le.mpr hc.2)),
      if_neg (fun hc => absurd (k7 hc.1) (not_le.mpr hc.2)),
      if_neg (fun hc => absurd (k8 hc.1) (not_le.mpr hc.2))]

/-- C8 witness: 15 °C sits in the [12, 22) band (0.3 kW), while −100 °C is
outside every band and gets the 2.0 kW fallback. -/
theorem c8_hvac_total_coverage_witness :
    estimate_hvac_power 15 = 3/10 ∧ estimate_hvac_power (-100) = 2 := by
  constructor
  · have h := (c8_hvac_total_coverage 15).1 ((12, 22), 3/10)
      (by norm_num [HVAC_POWER_MAP]) (by norm_num) (by norm_num)
    simpa using h
  · refine (c8_hvac_total_coverage (-100)).2 ?_
    intro b hb
    fin_cases hb <;> norm_num

end EvRange

namespace EvRange

/-- C9: the single batched request carries exactly the rounded ranges of the
bands at or above the 1.0 km minimum viable distance, in band order
(bands below the threshold contribute no distance), and every output band
whose range is below 1.0 km has absent geometry. -/
theorem c9_min_viable_distance (G : Type) (soc soh temp_c wind_ms : ℚ)
    (resp : Except EngineFailure (List (ℚ × G))) :
    requestDistances G soc soh temp_c wind_ms =
      ((planBands soc soh temp_c wind_ms).filter
        (fun r => decide (1 ≤ r))).map pyRound1 ∧
    ∀ (i : ℕ) (b : Band G),
      (mainBands G soc soh temp_c wind_ms resp)[i]? = some b →
      b.range_km < 1 → b.geometry = none := by
  constructor
  · rw [requestDistances, collectValid_fst]
    simp [bandResults, planBands, List.filter_map, List.map_map]
    rfl
  · intro i b hget hlt
    simp only [mainBands] at hget
    split_ifs at hget with hemp
    · exact bandResults_geometry soc soh temp_c wind_ms b (List.getElem?_mem hget)
    · have hne : ∀ u ∈ (collectValid (bandResults G soc soh temp_c wind_ms) 0).2.zip
          (fetch_valhalla_isodistance G
            (collectValid (bandResults G soc soh temp_c wind_ms) 0).1 resp),
          u.1 ≠ i := by
        intro u hu hui
        have hmem := (List.of_mem_zip hu).1
        obtain ⟨-, c, hc, hcr⟩ := collectValid_snd_mem _ 0 u.1 hmem
        rw [hui] at hc
        simp only [Nat.sub_zero] at hc
        have hrange := attachGeoms_getElem_range
          (bandResults G soc soh temp_c wind_ms)
          ((collectValid (bandResults G soc soh temp_c wind_ms) 0).2.zip
            (fetch_valhalla_isodistance G
              (collectValid (bandResults G soc soh temp_c wind_ms) 0).1 resp)) i
        rw [hget, hc] at hrange
        simp only [Option.map_some'] at hrange
        have hbc : b.range_km = c.range_km := by injection hrange
        linarith
      rw [attachGeoms_getElem_not_mem _ _ _ hne] at hget
      exact bandResults_geometry soc soh temp_c wind_ms b (List.getElem?_mem hget)

/-- C9 witness: at the reserve state of charge every band's range is 0 km
(below the threshold), and the 100 % band of the assembled output has
absent geometry. -/
theorem c9_min_viable_distance_witness :
    ((mainBands ℕ 5 95 15 0 (.error EngineFailure.connectionError))[0]? =
      some ⟨1, 0, none⟩) ∧
    (⟨1, 0, none⟩ : Band ℕ).geometry = none := by
  have hr : ∀ f : ℚ, calculate_range_km 5 95 15 0 f = 0 := fun f =>
    range_zero_of_reserve 5 95 15 0 f (by norm_num [RESERVE_SOC_PCT])
  have hget : (mainBands ℕ 5 95 15 0 (.error EngineFailure.connectionError))[0]? =
      some ⟨1, 0, none⟩ := by
    norm_num [mainBands, bandResults, ENERGY_BAND_FRACTIONS, collectValid, hr]
  exact ⟨hget,
    (c9_min_viable_distance ℕ 5 95 15 0 (.error EngineFailure.connectionError)).2
      0 ⟨1, 0, none⟩ hget (by norm_num)⟩

/-- C10: a fetch over N requested distances returns exactly N elements on
the success path and on every failure path; on success element i is the
tolerance-match for requested distance i against the engine's
contour-to-geometry dict, and on failure every element is absent. -/
theorem c10_positional_alignment (G : Type) (ds : List ℚ)
    (resp : Except EngineFailure (List (ℚ × G))) :
    (fetch_valhalla_isodistance G ds resp).length = ds.length ∧
    (∀ feats, resp = .ok feats → ∀ i, ∀ h : i < ds.length,
      (fetch_valhalla_isodistance G ds resp)[i]? =
        some (findMatch G (buildGeomByDistance G feats) (ds.get ⟨i, h⟩))) ∧
    (∀ e, resp = .error e →
      fetch_valhalla_isodistance G ds resp = List.replicate ds.length none) := by
  cases resp with
  | ok feats =>
      refine ⟨by simp [fetch_valhalla_isodistance], ?_, ?_⟩
      · intro feats2 heq i h
        cases heq
        simp [fetch_valhalla_isodistance, List.getElem?_map,
          List.getElem?_eq_getElem h]
      · intro e heq
        cases heq
  | error e =>
      refine ⟨by simp [fetch_valhalla_isodistance], ?_, ?_⟩
      · intro feats2 heq
        cases heq
      · intro e2 heq
        rfl

/-- C10 witness: requesting [150, 10] against a response contour at 150.3
returns exactly two elements: position 0 matched to geometry 7, position 1
absent. -/
theorem c10_positional_alignment_witness :
    (fetch_valhalla_isodistance ℕ [150, 10] (.ok [(1503/10, 7)])).length = 2 ∧
    (fetch_valhalla_isodistance ℕ [150, 10] (.ok [(1503/10, 7)]))[0]? =
      some (some 7) ∧
    (fetch_valhalla_isodistance ℕ [150, 10] (.ok [(1503/10, 7)]))[1]? =
      some none := by
  have hb : buildGeomByDistance ℕ [(1503/10, 7)] = [(1503/10, 7)] := by
    simp [buildGeomByDistance, dictInsert]
  have h0 := (c10_positional_alignment ℕ [150, 10] (.ok [(1503/10, 7)])).2.1
    [(1503/10, 7)] rfl 0 (by norm_num)
  have h1 := (c10_positional_alignment ℕ [150, 10] (.ok [(1503/10, 7)])).2.1
    [(1503/10, 7)] rfl 1 (by norm_num)
  refine ⟨by simpa using (c10_positional_alignment ℕ [150, 10]
    (.ok [(1503/10, 7)])).1, ?_, ?_⟩
  · rw [h0, hb]
    rw [show ([150, 10] : List ℚ).get ⟨0, by norm_num⟩ = 150 from rfl]
    rw [findMatch_cons_pos (1503/10, 7) [] 150 (by norm_num [abs_lt])]
  · rw [h1, hb]
    rw [show ([150, 10] : List ℚ).get ⟨1, by norm_num⟩ = 10 from rfl]
    rw [findMatch_cons_neg (1503/10, 7) [] 10 (by norm_num [abs_lt])]
    rfl

end EvRange
